import Mathlib

/-!
Verification development for the Samsoft Update Manager repository
(four Python sources: samsoftupdate0.x.py, samsofthdrv0.py,
#####samsoftupdater9.21.25v0.py — the 60 FPS variant — and program.py).

The shallow embedding below translates the data model and the operations of
the repository into Lean definitions: external PowerShell / installer
invocations are abstracted as collaborator results (stdout, stderr, exit
code), the Tk message queues as lists, and background threads as explicit
interleavings.  Wall-clock sleeps and real timestamps are carried as inert
data.
-/

namespace Samsoft

/-- Whether the character list p is an initial segment of l. -/
def startsWithChars : List Char → List Char → Bool
  | [], _ => true
  | _ :: _, [] => false
  | p :: ps, c :: cs => p == c && startsWithChars ps cs

/-- Whether the character list p occurs contiguously inside l. -/
def occursInChars (p : List Char) : List Char → Bool
  | [] => p.isEmpty
  | c :: cs => startsWithChars p (c :: cs) || occursInChars p cs

/-- Python's substring test (the `in` operator on strings), computed over
the underlying character lists. -/
def containsSub (pat s : String) : Bool := occursInChars pat.data s.data

/-- ASCII whitespace, as stripped by Python's str.strip. -/
def isSpaceChar (c : Char) : Bool :=
  c == ' ' || c == '\t' || c == '\n' || c == '\r'

/-- Python's `not s.strip()`: the string is empty or all whitespace. -/
def isBlank (s : String) : Bool := s.data.all isSpaceChar

/-- Python's s[:n] slice (by code point). -/
def strTake (n : Nat) (s : String) : String := String.mk (s.data.take n)

/-- Result of one external PowerShell / process invocation, as returned by
run_powershell: (stdout stripped, stderr stripped, returncode). -/
structure PSResult where
  out : String
  err : String
  code : Int
deriving DecidableEq, Repr

/-! ## Log buffer (60 FPS variant)

The 60 FPS source keeps `self.log_buffer = deque(maxlen=LOG_BUFFER_SIZE)`
with `LOG_BUFFER_SIZE = 1000`, extends it batch-wise in batch_log_update,
and renders `list(self.log_buffer)[-100:]`.  A `deque` with `maxlen`
evicts from the left once full, so one append keeps the last `cap`
elements of `buf ++ [x]`. -/

def LOG_BUFFER_SIZE : Nat := 1000

namespace LogBuffer

/-- One `deque(maxlen := cap).append(x)`: keep the last `cap` entries. -/
def append (cap : Nat) (buf : List String) (x : String) : List String :=
  let b := buf ++ [x]
  b.drop (b.length - cap)

/-- `deque.extend(xs)`: repeated append, one batch update, order preserved. -/
def extend (cap : Nat) (buf : List String) (xs : List String) : List String :=
  xs.foldl (append cap) buf

/-- The windowed rendering projection `list(buf)[-k:]`: the last `k`
buffered lines, in arrival order. -/
def recentWindow (k : Nat) (buf : List String) : List String :=
  buf.drop (buf.length - k)

theorem append_eq_rtake (cap : Nat) (buf : List String) (x : String) :
    append cap buf x = (buf ++ [x]).rtake cap := rfl

theorem recentWindow_eq_rtake (k : Nat) (buf : List String) :
    recentWindow k buf = buf.rtake k := rfl

end LogBuffer

theorem rtake_append_left_absorb {α : Type} (n : Nat) (l xs : List α) :
    (l.rtake n ++ xs).rtake n = (l ++ xs).rtake n := by
  simp only [List.rtake_eq_reverse_take_reverse, List.reverse_append,
    List.reverse_reverse]
  congr 1
  rw [List.take_append_eq_append_take, List.take_append_eq_append_take,
    List.take_take, Nat.min_eq_left (Nat.sub_le _ _)]

theorem length_rtake_le {α : Type} (n : Nat) (l : List α) :
    (l.rtake n).length ≤ n := by
  simp only [List.rtake, List.length_drop]
  omega

theorem rtake_of_length_le {α : Type} (n : Nat) (l : List α)
    (h : l.length ≤ n) : l.rtake n = l := by
  simp only [List.rtake, Nat.sub_eq_zero_of_le h, List.drop_zero]

/-- Folding deque appends from a buffer that respects the capacity keeps
exactly the last `cap` entries of the whole arrival sequence. -/
theorem LogBuffer.extend_eq_rtake (cap : Nat) (buf : List String)
    (xs : List String) (h : buf.length ≤ cap) :
    LogBuffer.extend cap buf xs = (buf ++ xs).rtake cap := by
  induction xs generalizing buf with
  | nil => simpa using (rtake_of_length_le cap buf h).symm
  | cons x xs ih =>
    have hlen : (LogBuffer.append cap buf x).length ≤ cap := by
      rw [LogBuffer.append_eq_rtake]
      exact length_rtake_le cap _
    calc LogBuffer.extend cap buf (x :: xs)
        = LogBuffer.extend cap (LogBuffer.append cap buf x) xs := rfl
      _ = (LogBuffer.append cap buf x ++ xs).rtake cap := ih _ hlen
      _ = ((buf ++ [x]).rtake cap ++ xs).rtake cap := by
            rw [LogBuffer.append_eq_rtake]
      _ = ((buf ++ [x]) ++ xs).rtake cap := rtake_append_left_absorb ..
      _ = (buf ++ (x :: xs)).rtake cap := by simp

theorem length_rtake_eq_min {α : Type} (n : Nat) (l : List α) :
    (l.rtake n).length = min n l.length := by
  simp only [List.rtake, List.length_drop]
  omega

theorem rtake_suffix {α : Type} (n : Nat) (l : List α) :
    l.rtake n <:+ l := List.drop_suffix _ _

/-- C4 — LogBuffer ring semantics: the buffer has fixed capacity 1000;
after appending a sequence ms of lines (batch appends preserving order)
the buffer holds exactly the last min (|ms|) 1000 lines in arrival order:
all of ms when |ms| ≤ 1000, and the length-1000 suffix of ms otherwise;
the windowed projection returns the last k buffered lines in arrival
order (a suffix of the buffer, of length min k |buffer|). -/
theorem C4_log_buffer_ring (ms : List String) (k : Nat) :
    LogBuffer.extend LOG_BUFFER_SIZE [] ms = ms.rtake LOG_BUFFER_SIZE
    ∧ (ms.length ≤ LOG_BUFFER_SIZE → LogBuffer.extend LOG_BUFFER_SIZE [] ms = ms)
    ∧ (LogBuffer.extend LOG_BUFFER_SIZE [] ms).length = min LOG_BUFFER_SIZE ms.length
    ∧ LogBuffer.extend LOG_BUFFER_SIZE [] ms <:+ ms
    ∧ LogBuffer.recentWindow k ms = ms.rtake k
    ∧ LogBuffer.recentWindow k ms <:+ ms
    ∧ (LogBuffer.recentWindow k ms).length = min k ms.length := by
  have hbase : LogBuffer.extend LOG_BUFFER_SIZE [] ms = ms.rtake LOG_BUFFER_SIZE := by
    simpa using LogBuffer.extend_eq_rtake LOG_BUFFER_SIZE [] ms (by simp)
  refine ⟨hbase, ?_, ?_, ?_, LogBuffer.recentWindow_eq_rtake k ms, ?_, ?_⟩
  · intro h
    rw [hbase]
    exact rtake_of_length_le _ _ h
  · rw [hbase]; exact length_rtake_eq_min ..
  · rw [hbase]; exact rtake_suffix ..
  · rw [LogBuffer.recentWindow_eq_rtake]; exact rtake_suffix ..
  · rw [LogBuffer.recentWindow_eq_rtake]; exact length_rtake_eq_min ..

/-- Witness for C4 at a concrete input: three lines fit within the
capacity of 1000, so the buffer holds exactly those three lines. -/
theorem C4_log_buffer_ring_witness :
    LogBuffer.extend LOG_BUFFER_SIZE [] ["a", "b", "c"] = ["a", "b", "c"] :=
  (C4_log_buffer_ring ["a", "b", "c"] 2).2.1 (by decide)

/-! ## Command channel of samsoftupdate0.x

samsoftupdate0.x.py carries timestamped events through a single
queue.Queue: producers call log / update_progress / set_status (which put
tagged pairs), and the Tk-side consumer process_message_queue drains the
queue in one callback (get_nowait until queue.Empty) and applies each
message to the display state.  The queue is modelled as the list of
pending messages in arrival order; the wall-clock timestamp used by
_log_safe is carried as the inert field now. -/

/-- Tagged message on the queue, one constructor per msg_type string. -/
inductive Msg
  | log (text : String)
  | progress (value : Int)
  | status (text : String)
  | enable_buttons
  | disable_buttons
deriving DecidableEq, Repr

structure AppState where
  message_queue : List Msg
  log_lines : List String
  status_var : String
  progress_var : Int
  buttons_enabled : Bool
  running_operation : Bool
  now : String
deriving DecidableEq, Repr

namespace AppState

/-- queue.Queue.put: appends and never blocks nor drops. -/
def put (m : Msg) (s : AppState) : AppState :=
  { s with message_queue := s.message_queue ++ [m] }

/-- Producer method log: queue a log message (thread-safe). -/
def log (msg : String) (s : AppState) : AppState := put (.log msg) s

/-- Producer method update_progress: queue a progress update. -/
def update_progress (value : Int) (s : AppState) : AppState :=
  put (.progress value) s

/-- Producer method set_status: queue a status update. -/
def set_status (msg : String) (s : AppState) : AppState := put (.status msg) s

/-- Consumer helper _log_safe: append the timestamped line and mirror the
raw message into the status bar. -/
def log_safe (s : AppState) (msg : String) : AppState :=
  { s with
    log_lines := s.log_lines ++ ["[" ++ s.now ++ "] " ++ msg],
    status_var := msg }

/-- Consumer helper _set_buttons_state: toggles all buttons and records
the running flag as the negation of enabled. -/
def set_buttons_state (s : AppState) (enabled : Bool) : AppState :=
  { s with buttons_enabled := enabled, running_operation := !enabled }

/-- One dispatch step of process_message_queue's while-loop body. -/
def apply_msg (s : AppState) : Msg → AppState
  | .log t => log_safe s t
  | .progress v => { s with progress_var := v }
  | .status t => { s with status_var := t }
  | .enable_buttons => set_buttons_state s true
  | .disable_buttons => set_buttons_state s false

/-- process_message_queue: drain the whole queue (get_nowait until Empty),
applying every message in FIFO order. -/
def process_message_queue (s : AppState) : AppState :=
  s.message_queue.foldl apply_msg { s with message_queue := [] }

end AppState

/-- The log text carried by a message, if it is a log event. -/
def logText : Msg → Option String
  | .log t => some t
  | _ => none

/-- Formatting applied by _log_safe under a fixed timestamp. -/
def fmtLog (now msg : String) : String := "[" ++ now ++ "] " ++ msg

theorem apply_msg_now (s : AppState) (m : Msg) :
    (s.apply_msg m).now = s.now := by
  cases m <;> rfl

theorem foldl_apply_msg_now (q : List Msg) (s : AppState) :
    (q.foldl AppState.apply_msg s).now = s.now := by
  induction q generalizing s with
  | nil => rfl
  | cons m q ih => rw [List.foldl_cons, ih, apply_msg_now]

/-- Draining appends to the displayed log exactly the queued log events,
formatted, in queue order. -/
theorem foldl_apply_msg_log_lines (q : List Msg) (s : AppState) :
    (q.foldl AppState.apply_msg s).log_lines
      = s.log_lines ++ (q.filterMap logText).map (fmtLog s.now) := by
  induction q generalizing s with
  | nil => simp
  | cons m q ih =>
    rw [List.foldl_cons, ih, apply_msg_now]
    cases m <;>
      simp [AppState.apply_msg, AppState.log_safe, AppState.set_buttons_state,
        logText, fmtLog]

theorem foldl_apply_msg_append (q₁ q₂ : List Msg) (s : AppState) :
    (q₁ ++ q₂).foldl AppState.apply_msg s
      = q₂.foldl AppState.apply_msg (q₁.foldl AppState.apply_msg s) :=
  List.foldl_append ..

theorem foldl_apply_msg_enable_last (q : List Msg) (s : AppState) :
    ((q ++ [Msg.enable_buttons]).foldl AppState.apply_msg s).running_operation = false
    ∧ ((q ++ [Msg.enable_buttons]).foldl AppState.apply_msg s).buttons_enabled = true := by
  rw [foldl_apply_msg_append]
  exact ⟨rfl, rfl⟩

theorem apply_msg_queue (s : AppState) (m : Msg) :
    (s.apply_msg m).message_queue = s.message_queue := by
  cases m <;> rfl

theorem foldl_apply_msg_queue (q : List Msg) (s : AppState) :
    (q.foldl AppState.apply_msg s).message_queue = s.message_queue := by
  induction q generalizing s with
  | nil => rfl
  | cons m q ih => rw [List.foldl_cons, ih, apply_msg_queue]

/-! ## Operation gate of samsoftupdate0.x (_operation_wrapper)

The operation functions passed to _operation_wrapper interact with the
shared state only by enqueueing messages (self.log, self.update_progress,
self.set_status) and may raise; an operation is therefore modelled as a
function from the state to the list of messages it enqueues together with
an optional raised exception text.  The wrapper checks the running flag,
enqueues disable_buttons, runs the operation inside try/except, logs a
raised exception as an error, and in the finally block always enqueues
enable_buttons. -/

def Operation : Type := AppState → List Msg × Option String

def enqueue_all (ms : List Msg) (s : AppState) : AppState :=
  ms.foldl (fun t m => t.put m) s

theorem enqueue_all_eq (ms : List Msg) (s : AppState) :
    enqueue_all ms s = { s with message_queue := s.message_queue ++ ms } := by
  induction ms generalizing s with
  | nil => simp [enqueue_all]
  | cons m ms ih =>
    show enqueue_all ms (s.put m) = _
    rw [ih]
    simp [AppState.put]

/-- The try/except body of _operation_wrapper, after disable_buttons has
been enqueued: run the operation (its emissions land on the queue) and
convert a raised exception into a logged error. -/
def wrapper_body (op : Operation) (s1 : AppState) : AppState :=
  match op s1 with
  | (msgs, some e) => (enqueue_all msgs s1).log ("[ERROR] Operation failed: " ++ e)
  | (msgs, none) => enqueue_all msgs s1

/-- The messages the try/except body adds to the channel. -/
def body_msgs (op : Operation) (s1 : AppState) : List Msg :=
  (op s1).1 ++ (match (op s1).2 with
    | some e => [Msg.log ("[ERROR] Operation failed: " ++ e)]
    | none => [])

theorem wrapper_body_eq (op : Operation) (s1 : AppState) :
    wrapper_body op s1
      = { s1 with message_queue := s1.message_queue ++ body_msgs op s1 } := by
  rcases hop : op s1 with ⟨msgs, exc⟩
  cases exc <;>
    simp [wrapper_body, body_msgs, hop, enqueue_all_eq, AppState.log,
      AppState.put]

/-- _operation_wrapper: reject with a logged warning if an operation is
already running; otherwise enqueue disable_buttons, run the operation
inside try/except, and unconditionally enqueue enable_buttons (the
finally block). -/
def operation_wrapper (op : Operation) (s : AppState) : AppState :=
  if s.running_operation then
    s.log "[WARNING] Another operation is already running. Please wait."
  else
    (wrapper_body op (s.put .disable_buttons)).put .enable_buttons

/-- The messages the wrapper adds to the channel on the accepted path. -/
def wrapper_queue_suffix (op : Operation) (s : AppState) : List Msg :=
  (Msg.disable_buttons :: body_msgs op (s.put .disable_buttons))
    ++ [Msg.enable_buttons]

theorem operation_wrapper_eq (op : Operation) (s : AppState)
    (h : s.running_operation = false) :
    operation_wrapper op s
      = { s with message_queue := s.message_queue ++ wrapper_queue_suffix op s } := by
  unfold operation_wrapper
  rw [if_neg (by simp [h]), wrapper_body_eq]
  simp [wrapper_queue_suffix, AppState.put]

/-- One full sequential round: the wrapper call followed by the consumer
draining the channel. -/
def run_op_once (op : Operation) (s : AppState) : AppState :=
  (operation_wrapper op s).process_message_queue

theorem run_op_once_release (op : Operation) (s : AppState)
    (h : s.running_operation = false) :
    (run_op_once op s).running_operation = false
    ∧ (run_op_once op s).buttons_enabled = true := by
  unfold run_op_once
  rw [operation_wrapper_eq op s h]
  show ((s.message_queue ++ wrapper_queue_suffix op s).foldl AppState.apply_msg _).running_operation = false
    ∧ ((s.message_queue ++ wrapper_queue_suffix op s).foldl AppState.apply_msg _).buttons_enabled = true
  rw [show s.message_queue ++ wrapper_queue_suffix op s
      = (s.message_queue ++ (Msg.disable_buttons :: body_msgs op (s.put .disable_buttons)))
          ++ [Msg.enable_buttons]
    by simp [wrapper_queue_suffix]]
  exact foldl_apply_msg_enable_last ..

/-- A fresh application state, as built in UpdateManagerApp.__init__. -/
def initState (now : String) : AppState :=
  { message_queue := []
    log_lines := []
    status_var := "Idle."
    progress_var := 0
    buttons_enabled := true
    running_operation := false
    now := now }

theorem iterate_running_false (op : Operation) (s : AppState)
    (h : s.running_operation = false) :
    ∀ n, ((run_op_once op)^[n] s).running_operation = false
  | 0 => h
  | n + 1 => by
    rw [Function.iterate_succ_apply']
    exact (run_op_once_release op _ (iterate_running_false op s h n)).1

/-- C2 — Unconditional release: starting from a non-running state, one
wrapper call followed by the consumer drain always ends with the running
flag cleared and the controls enabled, whatever the operation emits and
whether or not it raises; iterating the round N (more than zero) times,
for instance with an operation that always fails, still ends Idle with
controls enabled; and a raised exception is converted into a logged
"[ERROR] Operation failed" line instead of propagating. -/
theorem C2_unconditional_release (op : Operation) (s : AppState) (n : Nat)
    (h : s.running_operation = false) (hn : 0 < n) :
    ((run_op_once op)^[n] s).running_operation = false
    ∧ ((run_op_once op)^[n] s).buttons_enabled = true
    ∧ (∀ e, (op (s.put .disable_buttons)).2 = some e →
        fmtLog s.now ("[ERROR] Operation failed: " ++ e)
          ∈ (run_op_once op s).log_lines) := by
  refine ⟨iterate_running_false op s h n, ?_, ?_⟩
  · rcases n with _ | m
    · exact absurd hn (by simp)
    · rw [Function.iterate_succ_apply']
      exact (run_op_once_release op _ (iterate_running_false op s h m)).2
  · intro e he
    unfold run_op_once
    rw [operation_wrapper_eq op s h]
    show fmtLog s.now _ ∈ (List.foldl AppState.apply_msg _ _).log_lines
    rw [foldl_apply_msg_log_lines]
    refine List.mem_append_right _ (List.mem_map.mpr ⟨_, List.mem_filterMap.mpr ⟨Msg.log ("[ERROR] Operation failed: " ++ e), ?_, rfl⟩, rfl⟩)
    have : Msg.log ("[ERROR] Operation failed: " ++ e) ∈ body_msgs op (s.put .disable_buttons) := by
      unfold body_msgs
      rw [he]
      simp
    simp [wrapper_queue_suffix, this]

/-- Witness for C2: an operation that always raises, run three times
sequentially from a fresh state, leaves the state Idle with controls
enabled, and the exception text appears as a logged error line. -/
theorem C2_unconditional_release_witness :
    ((run_op_once (fun _ => ([], some "boom")))^[3] (initState "T")).running_operation = false
    ∧ ((run_op_once (fun _ => ([], some "boom")))^[3] (initState "T")).buttons_enabled = true
    ∧ fmtLog "T" "[ERROR] Operation failed: boom"
        ∈ (run_op_once (fun _ => ([], some "boom")) (initState "T")).log_lines := by
  obtain ⟨h1, h2, h3⟩ :=
    C2_unconditional_release (fun _ => ([], some "boom")) (initState "T") 3 rfl
      (by decide)
  exact ⟨h1, h2, h3 "boom" rfl⟩

/-- C3 — Command channel delivery: enqueueing via put (and the producer
methods log / update_progress / set_status) is a total function that
appends exactly one event and drops nothing; the consumer
process_message_queue empties the queue, applying every queued event
exactly once in FIFO order (observed on the displayed log, which gains
exactly the queued log events, formatted, in queue order); any producer's
subsequence of the channel reaches the display in that producer's order;
and with an empty queue the consumer returns with the state unchanged. -/
theorem C3_command_channel (s : AppState) (m : Msg) (msg : String) (v : Int)
    (p : List Msg) :
    (s.put m).message_queue = s.message_queue ++ [m]
    ∧ (AppState.log msg s).message_queue = s.message_queue ++ [Msg.log msg]
    ∧ (AppState.update_progress v s).message_queue
        = s.message_queue ++ [Msg.progress v]
    ∧ (AppState.set_status msg s).message_queue
        = s.message_queue ++ [Msg.status msg]
    ∧ s.process_message_queue.message_queue = []
    ∧ s.process_message_queue.log_lines
        = s.log_lines ++ (s.message_queue.filterMap logText).map (fmtLog s.now)
    ∧ (List.Sublist p s.message_queue →
        List.Sublist ((p.filterMap logText).map (fmtLog s.now))
          ((s.process_message_queue.log_lines).drop s.log_lines.length))
    ∧ (s.message_queue = [] → s.process_message_queue = s) := by
  have hlog : s.process_message_queue.log_lines
      = s.log_lines ++ (s.message_queue.filterMap logText).map (fmtLog s.now) :=
    foldl_apply_msg_log_lines s.message_queue { s with message_queue := [] }
  refine ⟨rfl, rfl, rfl, rfl, ?_, hlog, ?_, ?_⟩
  · exact foldl_apply_msg_queue s.message_queue { s with message_queue := [] }
  · intro hp
    rw [hlog, List.drop_left]
    exact (hp.filterMap logText).map (fmtLog s.now)
  · intro h
    cases s with
    | mk q ll sv pv be ro nw =>
      simp only [AppState.process_message_queue] at *
      simp [h]

/-- Witness for C3: a concrete three-event queue is drained in order and
a producer subsequence of it is preserved; an empty queue is a no-op. -/
theorem C3_command_channel_witness :
    List.Sublist (([Msg.log "a", Msg.log "b"].filterMap logText).map (fmtLog "T"))
      ((AppState.process_message_queue
            { initState "T" with
              message_queue := [Msg.log "a", Msg.progress 5, Msg.log "b"] }).log_lines.drop 0)
    ∧ AppState.process_message_queue (initState "T") = initState "T" := by
  refine ⟨?_, ?_⟩
  · exact (C3_command_channel
      { initState "T" with
        message_queue := [Msg.log "a", Msg.progress 5, Msg.log "b"] }
      Msg.enable_buttons "x" 0 [Msg.log "a", Msg.log "b"]).2.2.2.2.2.2.1
      (by decide)
  · exact (C3_command_channel (initState "T") Msg.enable_buttons "x" 0 []).2.2.2.2.2.2.2
      rfl

/-! ## Interleaved start requests (samsoftupdate0.x)

Two background threads may each run _operation_wrapper concurrently (the
button handler spawns the thread first; the guard check happens inside
the thread).  The guard reads self.running_operation, but the flag is
only set later, when the Tk consumer processes the queued disable_buttons
message in _set_buttons_state.  The model below interleaves the
observable steps of two wrapper threads with consumer runs of
process_message_queue over the shared state.

Thread steps (program counter): 0 = guard check of running_operation;
1 = put disable_buttons; 2 = execute the operation body; 3 = put
enable_buttons (finally); 4 = finished; 5 = finished after rejection. -/

structure GateSys where
  shared : AppState
  pcA : Nat
  pcB : Nat
  opsA : Nat
  opsB : Nat
deriving DecidableEq, Repr

/-- Which thread or the GUI consumer runs next. -/
inductive Sched
  | tA
  | tB
  | gui
deriving DecidableEq, Repr

/-- One observable step of a wrapper thread, given its pc; returns the
new shared state, new pc, and how many operation bodies it has begun. -/
def wrapper_step (s : AppState) (pc ops : Nat) : AppState × Nat × Nat :=
  match pc with
  | 0 =>
    if s.running_operation then
      (s.log "[WARNING] Another operation is already running. Please wait.", 5, ops)
    else
      (s, 1, ops)
  | 1 => (s.put .disable_buttons, 2, ops)
  | 2 => (s, 3, ops + 1)
  | 3 => (s.put .enable_buttons, 4, ops)
  | _ => (s, pc, ops)

def gate_step (g : GateSys) : Sched → GateSys
  | .tA =>
    let r := wrapper_step g.shared g.pcA g.opsA
    { g with shared := r.1, pcA := r.2.1, opsA := r.2.2 }
  | .tB =>
    let r := wrapper_step g.shared g.pcB g.opsB
    { g with shared := r.1, pcB := r.2.1, opsB := r.2.2 }
  | .gui => { g with shared := g.shared.process_message_queue }

def gate_run (g : GateSys) (sched : List Sched) : GateSys :=
  sched.foldl gate_step g

/-- Both wrapper threads poised at the guard, state Idle. -/
def gate_init : GateSys :=
  { shared := initState "T", pcA := 0, pcB := 0, opsA := 0, opsB := 0 }

/-- C1 evaluated at the failing interleaving: when both start requests
run their guard check before the GUI consumer processes the queued
disable_buttons message, both pass the guard (the flag is still false),
both operation bodies execute — two operations Running at once, with no
rejection warning enqueued — whereas a sequentialized schedule in which
the consumer runs between the two requests rejects the second with the
logged warning and runs exactly one operation body. -/
theorem C1_nonatomic_check_and_set :
    (gate_run gate_init [.tA, .tB, .tA, .tB, .tA, .tB]).opsA = 1
    ∧ (gate_run gate_init [.tA, .tB, .tA, .tB, .tA, .tB]).opsB = 1
    ∧ (gate_run gate_init [.tA, .tB, .tA, .tB, .tA, .tB]).shared.message_queue.filterMap logText = []
    ∧ (gate_run gate_init [.tA, .tA, .gui, .tB, .tA, .tA, .gui]).opsA = 1
    ∧ (gate_run gate_init [.tA, .tA, .gui, .tB, .tA, .tA, .gui]).opsB = 0
    ∧ (gate_run gate_init [.tA, .tA, .gui, .tB, .tA, .tA, .gui]).pcB = 5
    ∧ (fmtLog "T" "[WARNING] Another operation is already running. Please wait.")
        ∈ (gate_run gate_init [.tA, .tA, .gui, .tB, .tA, .tA, .gui]).shared.log_lines := by
  decide

/-! ## 60 FPS render loop (the ##### source)

update_ui first drains up to 50 entries of log_queue into
batch_log_update, then pops closures from ui_update_queue and calls them;
its try/except blocks catch only queue.Empty, so an exception raised by a
closure propagates out of update_ui, and start_ui_loop then never reaches
its root.after call, so the loop is not re-armed.  The closures actually
enqueued are the status-truncation lambda of log and the progress-setting
lambda of update_progress; an event that raises when applied is modelled
by the raises constructor.  The wall-clock 80 % frame-budget early break
(which can only stop after a successful event application, deferring the
rest) is real-time behaviour and is not modelled. -/

inductive UiEvent
  | set_status (text : String)
  | set_progress (value : Int)
  | raises (e : String)
deriving DecidableEq, Repr

def UiEvent.isRaises : UiEvent → Bool
  | .raises _ => true
  | _ => false

structure FpsState where
  log_queue : List String
  ui_update_queue : List UiEvent
  log_buffer : List String
  log_text : List String
  status_var : String
  progress_var : Int
  perf_mode : Bool
deriving DecidableEq, Repr

namespace FpsState

/-- Producer log: push the raw line on log_queue and queue the
status-bar closure (the message truncated to 80 characters). -/
def log (msg : String) (s : FpsState) : FpsState :=
  { s with
    log_queue := s.log_queue ++ [msg],
    ui_update_queue := s.ui_update_queue ++ [.set_status (strTake 80 msg)] }

/-- Producer update_progress: queue the progress-setting closure. -/
def update_progress (v : Int) (s : FpsState) : FpsState :=
  { s with ui_update_queue := s.ui_update_queue ++ [.set_progress v] }

/-- batch_log_update: immediate append in standard mode; in performance
mode extend the ring buffer and redraw the last 100 lines. -/
def batch_log_update (s : FpsState) (messages : List String) : FpsState :=
  if !s.perf_mode then
    { s with log_text := s.log_text ++ messages }
  else
    { s with
      log_buffer := LogBuffer.extend LOG_BUFFER_SIZE s.log_buffer messages,
      log_text := LogBuffer.recentWindow 100
        (LogBuffer.extend LOG_BUFFER_SIZE s.log_buffer messages) }

end FpsState

/-- Calling one dequeued update closure; raises is a raised exception. -/
def apply_ui_event (s : FpsState) : UiEvent → Except String FpsState
  | .set_status t => .ok { s with status_var := t }
  | .set_progress v => .ok { s with progress_var := v }
  | .raises e => .error e

/-- The same application, as a total function on non-raising events. -/
def apply_ui_ok (s : FpsState) : UiEvent → FpsState
  | .set_status t => { s with status_var := t }
  | .set_progress v => { s with progress_var := v }
  | .raises _ => s

/-- The ui_update_queue loop of update_ui: each iteration dequeues one
closure and calls it; only queue.Empty is caught, so a raised exception
leaves the not-yet-dequeued closures pending and propagates. -/
def process_ui_updates (s : FpsState) : List UiEvent → Except (String × FpsState) FpsState
  | [] => .ok s
  | e :: rest =>
    match apply_ui_event { s with ui_update_queue := rest } e with
    | .ok s' => process_ui_updates s' rest
    | .error m => .error (m, { s with ui_update_queue := rest })

/-- The log-batching phase of update_ui: pop up to 50 log lines and pass
them to batch_log_update (skipped when none are pending). -/
def drain_log_batch (s : FpsState) : FpsState :=
  let batch := s.log_queue.take 50
  let s1 := { s with log_queue := s.log_queue.drop 50 }
  if batch.isEmpty then s1 else s1.batch_log_update batch

/-- update_ui: both phases in order. -/
def update_ui (s : FpsState) : Except (String × FpsState) FpsState :=
  process_ui_updates (drain_log_batch s) (drain_log_batch s).ui_update_queue

/-- One scheduled tick of start_ui_loop: it calls update_ui and re-arms
the loop through root.after only if update_ui returned normally. -/
def start_ui_loop_tick (s : FpsState) : FpsState × Bool :=
  match update_ui s with
  | .ok s' => (s', true)
  | .error (_, s') => (s', false)

/-- A quiescent 60 FPS state with a failing and a pending event queued. -/
def c5_state : FpsState :=
  { log_queue := []
    ui_update_queue := [.raises "boom", .set_progress 50]
    log_buffer := []
    log_text := []
    status_var := "Idle."
    progress_var := 0
    perf_mode := true }

/-- Counterexample to C5 as stated: a tick whose first queued event
raises is aborted — the remaining queued event of that tick is left
unprocessed, the loop is not re-armed (no root.after call is reached),
and the exception is not turned into a log event (log_queue stays
empty), contrary to the claimed report-on-next-tick behaviour. -/
theorem C5_render_tick_counterexample :
    (start_ui_loop_tick c5_state).2 = false
    ∧ (start_ui_loop_tick c5_state).1.ui_update_queue = [.set_progress 50]
    ∧ (start_ui_loop_tick c5_state).1.progress_var = 0
    ∧ (start_ui_loop_tick c5_state).1.log_queue = [] := by
  decide

theorem apply_ui_ok_queue_set (s : FpsState) (ev : UiEvent) (x : List UiEvent) :
    apply_ui_ok { s with ui_update_queue := x } ev
      = { apply_ui_ok s ev with ui_update_queue := x } := by
  cases ev <;> rfl

theorem foldl_apply_ui_ok_queue_set (l : List UiEvent) (s : FpsState)
    (x : List UiEvent) :
    l.foldl apply_ui_ok { s with ui_update_queue := x }
      = { l.foldl apply_ui_ok s with ui_update_queue := x } := by
  induction l generalizing s x with
  | nil => rfl
  | cons ev l ih =>
    rw [List.foldl_cons, List.foldl_cons, apply_ui_ok_queue_set, ih]

theorem apply_ui_event_ok (s : FpsState) (ev : UiEvent)
    (h : ev.isRaises = false) :
    apply_ui_event s ev = .ok (apply_ui_ok s ev) := by
  cases ev <;> simp_all [UiEvent.isRaises, apply_ui_event, apply_ui_ok]

theorem process_ui_updates_raise (pre : List UiEvent) (e : String)
    (post : List UiEvent) (s : FpsState)
    (hpre : ∀ ev ∈ pre, ev.isRaises = false) :
    process_ui_updates s (pre ++ UiEvent.raises e :: post)
      = .error (e, { pre.foldl apply_ui_ok s with ui_update_queue := post }) := by
  induction pre generalizing s with
  | nil => rfl
  | cons ev pre ih =>
    have hev : ev.isRaises = false := hpre ev (by simp)
    show (match apply_ui_event _ ev with
      | .ok s' => process_ui_updates s' _
      | .error m => .error (m, _)) = _
    rw [apply_ui_event_ok _ ev hev]
    show process_ui_updates (apply_ui_ok _ ev) (pre ++ UiEvent.raises e :: post) = _
    rw [ih _ (fun x hx => hpre x (by simp [hx])), apply_ui_ok_queue_set,
      foldl_apply_ui_ok_queue_set]
    rfl

theorem apply_ui_ok_log_queue (s : FpsState) (ev : UiEvent) :
    (apply_ui_ok s ev).log_queue = s.log_queue := by
  cases ev <;> rfl

theorem foldl_apply_ui_ok_log_queue (l : List UiEvent) (s : FpsState) :
    (l.foldl apply_ui_ok s).log_queue = s.log_queue := by
  induction l generalizing s with
  | nil => rfl
  | cons ev l ih => rw [List.foldl_cons, ih, apply_ui_ok_log_queue]

theorem drain_log_batch_ui_queue (s : FpsState) :
    (drain_log_batch s).ui_update_queue = s.ui_update_queue := by
  simp only [drain_log_batch, FpsState.batch_log_update]
  split
  · rfl
  · split <;> rfl

theorem drain_log_batch_log_queue (s : FpsState) :
    (drain_log_batch s).log_queue = s.log_queue.drop 50 := by
  simp only [drain_log_batch, FpsState.batch_log_update]
  split
  · rfl
  · split <;> rfl

/-- C5 amended — Render-tick abort semantics: whenever one queued UI
event raises while being applied, the tick is aborted at that event: the
events already applied keep their effect, the not-yet-dequeued events of
that tick remain pending, the exception propagates out of update_ui
(only queue.Empty is caught), so the periodic loop is not re-armed; and
the exception is never converted into a log event (the pending log queue
only shrinks by the batch consumed before the failure). -/
theorem C5_render_tick_abort (s : FpsState) (pre post : List UiEvent)
    (e : String) (hpre : ∀ ev ∈ pre, ev.isRaises = false)
    (hq : s.ui_update_queue = pre ++ UiEvent.raises e :: post) :
    start_ui_loop_tick s
      = ({ pre.foldl apply_ui_ok (drain_log_batch s) with ui_update_queue := post },
          false)
    ∧ (start_ui_loop_tick s).1.log_queue = s.log_queue.drop 50 := by
  have hmain : start_ui_loop_tick s
      = ({ pre.foldl apply_ui_ok (drain_log_batch s) with ui_update_queue := post },
          false) := by
    unfold start_ui_loop_tick update_ui
    rw [drain_log_batch_ui_queue, hq, process_ui_updates_raise _ _ _ _ hpre]
  refine ⟨hmain, ?_⟩
  rw [hmain]
  show (pre.foldl apply_ui_ok (drain_log_batch s)).log_queue = _
  rw [foldl_apply_ui_ok_log_queue, drain_log_batch_log_queue]

/-- Witness for the amended C5 at a concrete input: one successful event
precedes the failing one; the applied effect persists, the trailing
event stays pending, and the loop is not re-armed. -/
theorem C5_render_tick_abort_witness :
    start_ui_loop_tick { c5_state with
        ui_update_queue := [.set_progress 10, .raises "boom", .set_progress 50] }
      = ({ c5_state with progress_var := 10, ui_update_queue := [.set_progress 50] },
          false) := by
  have h := C5_render_tick_abort
    { c5_state with
      ui_update_queue := [.set_progress 10, .raises "boom", .set_progress 50] }
    [.set_progress 10] [.set_progress 50] "boom" (by decide) rfl
  rw [h.1]
  decide

/-! ## Scan (check-updates) operations

The scan threads emit an interleaved sequence of log lines and progress
values; an execution is modelled as that event sequence, parametrized by
the cached module-availability flag and the collaborator results of the
module install and of the scan command.  Wall-clock pacing sleeps are
dropped; the order of emissions is preserved. -/

inductive OutEv
  | log (text : String)
  | progress (value : Nat)
deriving DecidableEq, Repr

def progOf : OutEv → Option Nat
  | .progress v => some v
  | _ => none

def logOf : OutEv → Option String
  | .log t => some t
  | _ => none

/-- The progress values emitted by a run, in order. -/
def progTrace (evs : List OutEv) : List Nat := evs.filterMap progOf

/-- The log lines emitted by a run, in order. -/
def logTrace (evs : List OutEv) : List String := evs.filterMap logOf

/-- The terminal log line of a run. -/
def lastLog (evs : List OutEv) : Option String := (logTrace evs).getLast?

/-- The final progress value of a run. -/
def lastProgress (evs : List OutEv) : Option Nat := (progTrace evs).getLast?

/-- Python range(start, stop, step) for a positive step. -/
def pyRange (start stop step : Nat) : List Nat :=
  (List.range ((stop - start + step - 1) / step)).map (fun i => start + i * step)

/-- ensure_module's install-failure test in samsofthdrv0 and the 60 FPS
variant: a non-empty stderr is fatal unless it mentions already exists
or NoMatch. -/
def install_failed (err : String) : Bool :=
  err != "" && !containsSub "already exists" err && !containsSub "NoMatch" err

/-- Result interpretation of samsofthdrv0._check_updates_thread: stderr
without the no-updates code 0x80240024 is an error; empty stdout or that
code means up to date; otherwise the update list is logged. -/
def scan_result_logs (r : PSResult) : List OutEv :=
  if r.err != "" && !containsSub "0x80240024" r.err then
    [.log ("[ERROR] " ++ r.err)]
  else if isBlank r.out || containsSub "0x80240024" r.err then
    [.log "[OK] System is up to date."]
  else
    [.log "[FOUND] Available updates:", .log r.out]

/-- samsofthdrv0._check_updates_thread as its emitted event sequence. -/
def check_updates_thread_hdrv (available : Bool)
    (installRes scanRes : PSResult) : List OutEv :=
  [.log "[CHECK] Searching online for updates...", .progress 10]
  ++ (if available then
        [.progress 30, .progress 70] ++ scan_result_logs scanRes
          ++ [.progress 100, .progress 0]
      else
        [.log "[INFO] Installing PSWindowsUpdate..."]
        ++ (if install_failed installRes.err then
              [.log ("[ERROR] Failed to install PSWindowsUpdate: "
                  ++ installRes.err),
               .progress 0]
            else
              [.log "[OK] PSWindowsUpdate installed successfully.",
               .progress 30, .progress 70] ++ scan_result_logs scanRes
                ++ [.progress 100, .progress 0]))

/-- Result interpretation of the 60 FPS check_updates (same branching;
no trailing periods, and at most 50 lines of the update list shown). -/
def scan_result_logs_fps (r : PSResult) : List OutEv :=
  if r.err != "" && !containsSub "0x80240024" r.err then
    [.log ("[ERROR] " ++ r.err)]
  else if isBlank r.out || containsSub "0x80240024" r.err then
    [.log "[OK] System is up to date"]
  else
    .log "[FOUND] Available updates:"
      :: ((r.out.splitOn "\n").take 50).map OutEv.log

/-- The part of the 60 FPS check_updates after a successful ensure_module:
smooth progress ranges around the collaborator call, then the result
branch, the completion ramp to exactly 100, and the reset to 0. -/
def fps_scan_core (scanRes : PSResult) : List OutEv :=
  (pyRange 10 30 2).map OutEv.progress
  ++ (pyRange 30 70 3).map OutEv.progress
  ++ scan_result_logs_fps scanRes
  ++ (pyRange 70 101 2).map OutEv.progress
  ++ [.progress 0]

/-- The 60 FPS check_updates as its emitted event sequence. -/
def check_updates_fps (available : Bool)
    (installRes scanRes : PSResult) : List OutEv :=
  [.log "[CHECK] Searching online for updates...", .progress 10]
  ++ (if available then
        fps_scan_core scanRes
      else
        [.log "[INFO] Installing PSWindowsUpdate..."]
        ++ (if install_failed installRes.err then
              [.log ("[ERROR] Failed to install PSWindowsUpdate: "
                  ++ installRes.err),
               .progress 0]
            else
              [.log "[OK] PSWindowsUpdate installed successfully"]
                ++ fps_scan_core scanRes))

/-- program.py's ensure_module: install only when the availability check
printed nothing; any stderr from the install is a failure. -/
def ensure_module_program (checkOut installErr : String) : Bool × List OutEv :=
  if isBlank checkOut then
    if installErr != "" then
      (false, [.log "[INFO] PSWindowsUpdate not found. Installing...",
               .log ("[ERROR] Failed to install PSWindowsUpdate: " ++ installErr)])
    else
      (true, [.log "[INFO] PSWindowsUpdate not found. Installing...",
              .log "[OK] PSWindowsUpdate installed successfully."])
  else (true, [])

/-- program.py._check_updates_thread as its emitted event sequence (this
variant has no progress bar, so only log events appear). -/
def check_updates_thread_program (checkOut installErr scanOut scanErr : String) :
    List OutEv :=
  [.log "[CHECK] Looking for updates..."]
  ++ (ensure_module_program checkOut installErr).2
  ++ (if !(ensure_module_program checkOut installErr).1 then []
      else if scanErr != "" then [.log ("[ERROR] " ++ scanErr)]
      else if isBlank scanOut then
        [.log "[ERROR] ALL GOOD [Y] PROCESS COMPLETED"]
      else [.log ("[FOUND] Updates available:\n" ++ scanOut)])

theorem progTrace_append (a b : List OutEv) :
    progTrace (a ++ b) = progTrace a ++ progTrace b :=
  List.filterMap_append ..

theorem progTrace_map_progress (l : List Nat) :
    progTrace (l.map OutEv.progress) = l := by
  induction l with
  | nil => rfl
  | cons x l ih => simp [progTrace, progOf] at ih ⊢; exact ih

theorem progTrace_map_log (l : List String) :
    progTrace (l.map OutEv.log) = [] := by
  induction l with
  | nil => rfl
  | cons x l ih =>
    simp only [progTrace, progOf, List.map_cons, List.filterMap_cons] at ih ⊢
    exact ih

theorem progTrace_scan_result_logs (r : PSResult) :
    progTrace (scan_result_logs r) = [] := by
  unfold scan_result_logs
  split
  · rfl
  · split <;> rfl

theorem progTrace_scan_result_logs_fps (r : PSResult) :
    progTrace (scan_result_logs_fps r) = [] := by
  unfold scan_result_logs_fps
  split
  · rfl
  · split
    · rfl
    · show progTrace (OutEv.log _ :: _) = []
      have := progTrace_map_log ((r.out.splitOn "\n").take 50)
      simp [progTrace, progOf] at this ⊢
      exact this

/-- The fixed progress trace of a completed 60 FPS scan. -/
def fps_progress_trace : List Nat :=
  10 :: (pyRange 10 30 2 ++ pyRange 30 70 3 ++ pyRange 70 101 2 ++ [0])

theorem progTrace_fps_scan_core (r : PSResult) :
    progTrace (fps_scan_core r)
      = pyRange 10 30 2 ++ pyRange 30 70 3 ++ pyRange 70 101 2 ++ [0] := by
  unfold fps_scan_core
  rw [progTrace_append, progTrace_append, progTrace_append, progTrace_append,
    progTrace_map_progress, progTrace_map_progress, progTrace_map_progress,
    progTrace_scan_result_logs_fps]
  rfl

theorem progTrace_hdrv_available (i r : PSResult) :
    progTrace (check_updates_thread_hdrv true i r) = [10, 30, 70, 100, 0] := by
  show progTrace ([.log _, .progress 10]
    ++ ([.progress 30, .progress 70] ++ scan_result_logs r
        ++ [.progress 100, .progress 0])) = _
  rw [progTrace_append, progTrace_append, progTrace_append,
    progTrace_scan_result_logs]
  rfl

theorem progTrace_fps_available (i r : PSResult) :
    progTrace (check_updates_fps true i r) = fps_progress_trace := by
  show progTrace ([.log _, .progress 10] ++ fps_scan_core r) = _
  rw [progTrace_append, progTrace_fps_scan_core]
  rfl

theorem progTrace_hdrv_install_failed (i r : PSResult)
    (h : install_failed i.err = true) :
    progTrace (check_updates_thread_hdrv false i r) = [10, 0] := by
  unfold check_updates_thread_hdrv
  rw [if_neg (by simp), if_pos h]
  rfl

theorem progTrace_fps_install_failed (i r : PSResult)
    (h : install_failed i.err = true) :
    progTrace (check_updates_fps false i r) = [10, 0] := by
  unfold check_updates_fps
  rw [if_neg (by simp), if_pos h]
  rfl

theorem progTrace_hdrv_install_ok (i r : PSResult)
    (h : install_failed i.err = false) :
    progTrace (check_updates_thread_hdrv false i r) = [10, 30, 70, 100, 0] := by
  unfold check_updates_thread_hdrv
  rw [if_neg (by simp), if_neg (by simp [h])]
  show progTrace ([.log _, .progress 10]
    ++ ([.log _] ++ ([.log _, .progress 30, .progress 70]
        ++ scan_result_logs r ++ [.progress 100, .progress 0]))) = _
  rw [progTrace_append, progTrace_append, progTrace_append, progTrace_append,
    progTrace_scan_result_logs]
  rfl

theorem progTrace_fps_install_ok (i r : PSResult)
    (h : install_failed i.err = false) :
    progTrace (check_updates_fps false i r) = fps_progress_trace := by
  unfold check_updates_fps
  rw [if_neg (by simp), if_neg (by simp [h])]
  show progTrace ([.log _, .progress 10]
    ++ ([.log _] ++ ([.log _] ++ fps_scan_core r))) = _
  rw [progTrace_append, progTrace_append, progTrace_append,
    progTrace_fps_scan_core]
  rfl

/-- Counterexample to C6 as stated: the execution of the 60 FPS
check_updates in which the dependency install fails emits the progress
sequence 10 then 0 — the reset to 0 that ends the operation is reached
without the progress ever being 100, so not every execution reaches
exactly 100 before the final reset (the samsofthdrv0 scan behaves the
same way on this path). -/
theorem C6_progress_counterexample :
    progTrace (check_updates_fps false ⟨"", "boom", 1⟩ ⟨"", "", 0⟩) = [10, 0]
    ∧ 100 ∉ progTrace (check_updates_fps false ⟨"", "boom", 1⟩ ⟨"", "", 0⟩)
    ∧ (progTrace (check_updates_fps false ⟨"", "boom", 1⟩ ⟨"", "", 0⟩)).getLast?
        = some 0
    ∧ progTrace (check_updates_thread_hdrv false ⟨"", "boom", 1⟩ ⟨"", "", 0⟩)
        = [10, 0] := by
  decide

/-- C6 amended — Progress synthesis for the scan operation: in every
execution in which the PSWindowsUpdate dependency is available or its
on-demand install succeeds, the emitted progress sequence is
non-decreasing until the final reset, starts at 10 (hence at a value
at least 0), reaches exactly 100 immediately before the reset, and ends
with the reset to 0 (in the 60 FPS variant through the smooth ranges,
in samsofthdrv0 as 10, 30, 70, 100, 0); in the executions where the
dependency install fails the sequence is 10 followed by the reset to 0,
never reaching 100. -/
theorem C6_progress_synthesis (installRes scanRes : PSResult) :
    progTrace (check_updates_fps true installRes scanRes) = fps_progress_trace
    ∧ List.Chain' (· ≤ ·) fps_progress_trace.dropLast
    ∧ fps_progress_trace.head? = some 10
    ∧ fps_progress_trace.dropLast.getLast? = some 100
    ∧ fps_progress_trace.getLast? = some 0
    ∧ progTrace (check_updates_thread_hdrv true installRes scanRes)
        = [10, 30, 70, 100, 0]
    ∧ (install_failed installRes.err = true →
        progTrace (check_updates_fps false installRes scanRes) = [10, 0]
        ∧ progTrace (check_updates_thread_hdrv false installRes scanRes)
            = [10, 0])
    ∧ (install_failed installRes.err = false →
        progTrace (check_updates_fps false installRes scanRes)
            = fps_progress_trace
        ∧ progTrace (check_updates_thread_hdrv false installRes scanRes)
            = [10, 30, 70, 100, 0]) := by
  refine ⟨progTrace_fps_available installRes scanRes,
    by rw [List.chain'_iff_pairwise]; decide, by decide,
    by decide, by decide, progTrace_hdrv_available installRes scanRes,
    fun h => ⟨progTrace_fps_install_failed installRes scanRes h,
      progTrace_hdrv_install_failed installRes scanRes h⟩,
    fun h => ⟨progTrace_fps_install_ok installRes scanRes h,
      progTrace_hdrv_install_ok installRes scanRes h⟩⟩

/-- Witness for the amended C6 at concrete collaborator results: a
failing install yields the 10-then-0 trace, a collaborator returning
no updates yields the full trace with the same fixed progress values. -/
theorem C6_progress_synthesis_witness :
    progTrace (check_updates_fps true ⟨"", "", 0⟩ ⟨"", "", 0⟩) = fps_progress_trace
    ∧ progTrace (check_updates_fps false ⟨"", "boom", 1⟩ ⟨"x", "", 0⟩) = [10, 0]
    ∧ progTrace (check_updates_fps false ⟨"", "", 0⟩ ⟨"x", "", 0⟩)
        = fps_progress_trace := by
  refine ⟨(C6_progress_synthesis ⟨"", "", 0⟩ ⟨"", "", 0⟩).1, ?_, ?_⟩
  · exact ((C6_progress_synthesis ⟨"", "boom", 1⟩ ⟨"x", "", 0⟩).2.2.2.2.2.2.1
      (by decide)).1
  · exact ((C6_progress_synthesis ⟨"", "", 0⟩ ⟨"x", "", 0⟩).2.2.2.2.2.2.2
      (by decide)).1

/-- C8 — No-updates scan outcome: when the collaborator returns empty
stdout, empty stderr and exit code 0 with the module available, the
samsofthdrv0 scan and the 60 FPS scan end with the terminal log line
reporting that the system is up to date and with the progress value
reset to 0; the program.py variant (which has no progress bar) ends
with its custom all-good no-updates line. -/
theorem C8_no_updates_scan :
    lastLog (check_updates_thread_hdrv true ⟨"", "", 0⟩ ⟨"", "", 0⟩)
      = some "[OK] System is up to date."
    ∧ lastProgress (check_updates_thread_hdrv true ⟨"", "", 0⟩ ⟨"", "", 0⟩)
        = some 0
    ∧ lastLog (check_updates_fps true ⟨"", "", 0⟩ ⟨"", "", 0⟩)
        = some "[OK] System is up to date"
    ∧ lastProgress (check_updates_fps true ⟨"", "", 0⟩ ⟨"", "", 0⟩) = some 0
    ∧ lastLog (check_updates_thread_program "PSWindowsUpdate" "" "" "")
        = some "[ERROR] ALL GOOD [Y] PROCESS COMPLETED" := by
  decide

/-! ## ModuleAvailability (check_pswindowsupdate / ensure_module)

samsofthdrv0 and the 60 FPS variant cache the flag
self.pswindowsupdate_available: the startup check sets it, ensure_module
returns immediately when it is set, and otherwise runs exactly one
install command, judging failure by the stderr test of install_failed;
on success it sets the flag, which nothing ever clears. -/

structure EnsureResult where
  available : Bool
  ok : Bool
  install_attempts : Nat
  logs : List String
deriving DecidableEq, Repr

/-- check_pswindowsupdate of samsofthdrv0: the module counts as available
unless the check printed nothing on stdout and nothing on stderr. -/
def check_pswindowsupdate (r : PSResult) : Bool :=
  !(isBlank r.out && r.err == "")

/-- ensure_module: immediate true when the flag is cached; otherwise one
single install attempt, failed exactly when install_failed holds of the
collaborator's stderr. -/
def ensure_module (available : Bool) (installRes : PSResult) : EnsureResult :=
  if available then
    { available := true, ok := true, install_attempts := 0, logs := [] }
  else if install_failed installRes.err then
    { available := false, ok := false, install_attempts := 1,
      logs := ["[INFO] Installing PSWindowsUpdate...",
               "[ERROR] Failed to install PSWindowsUpdate: " ++ installRes.err] }
  else
    { available := true, ok := true, install_attempts := 1,
      logs := ["[INFO] Installing PSWindowsUpdate...",
               "[OK] PSWindowsUpdate installed successfully."] }

/-- A sequence of ensure_module calls over the process lifetime,
threading the cached flag; returns the final flag and the total number
of install attempts made. -/
def run_ensure_calls (flag : Bool) : List PSResult → Bool × Nat
  | [] => (flag, 0)
  | r :: rest =>
    let e := ensure_module flag r
    let t := run_ensure_calls e.available rest
    (t.1, e.install_attempts + t.2)

theorem run_ensure_calls_available (rs : List PSResult) :
    run_ensure_calls true rs = (true, 0) := by
  induction rs with
  | nil => rfl
  | cons r rs ih =>
    have he : ensure_module true r = ⟨true, true, 0, []⟩ := rfl
    simp [run_ensure_calls, he, ih]

/-- C9 — ModuleAvailability state machine: with the flag cached,
ensure_module returns true at once with no install attempt; with the
flag clear it performs exactly one install attempt per call, returns
false (flag still clear) exactly when the install failed by the stderr
criterion, and otherwise sets the flag and returns true; the flag
becomes set only through a non-failing install (or the initial check);
once set it persists for the remaining lifetime — any further sequence
of calls returns true and performs zero further install attempts. -/
theorem C9_module_availability (r : PSResult) (rs : List PSResult) :
    ensure_module true r = ⟨true, true, 0, []⟩
    ∧ (ensure_module false r).install_attempts = 1
    ∧ (install_failed r.err = true →
        (ensure_module false r).ok = false
        ∧ (ensure_module false r).available = false)
    ∧ (install_failed r.err = false →
        (ensure_module false r).ok = true
        ∧ (ensure_module false r).available = true)
    ∧ ((ensure_module false r).available = true → install_failed r.err = false)
    ∧ run_ensure_calls true rs = (true, 0)
    ∧ (install_failed r.err = false →
        run_ensure_calls false (r :: rs) = (true, 1)) := by
  refine ⟨rfl, ?_, ?_, ?_, ?_, run_ensure_calls_available rs, ?_⟩
  · unfold ensure_module
    rw [if_neg (by simp)]
    split <;> rfl
  · intro h
    unfold ensure_module
    rw [if_neg (by simp), if_pos h]
    exact ⟨rfl, rfl⟩
  · intro h
    unfold ensure_module
    rw [if_neg (by simp), if_neg (by simp [h])]
    exact ⟨rfl, rfl⟩
  · intro h
    by_contra hf
    replace hf : install_failed r.err = true := by
      cases hfe : install_failed r.err
      · exact absurd hfe hf
      · rfl
    unfold ensure_module at h
    rw [if_neg (by simp), if_pos hf] at h
    exact absurd h (by simp)
  · intro h
    show (let e := ensure_module false r
      let t := run_ensure_calls e.available rs
      ((t.1, e.install_attempts + t.2) : Bool × Nat)) = _
    simp only []
    unfold ensure_module
    rw [if_neg (by simp), if_neg (by simp [h])]
    simp only []
    rw [run_ensure_calls_available rs]
    rfl

/-- Witness for C9 at concrete collaborator results: a failing install
returns false; a clean install returns true; a clean install followed by
a later call performs one install attempt in total and ends available. -/
theorem C9_module_availability_witness :
    (ensure_module false ⟨"", "boom", 1⟩).ok = false
    ∧ (ensure_module false ⟨"", "", 0⟩).ok = true
    ∧ run_ensure_calls false [⟨"", "", 0⟩, ⟨"", "boom", 1⟩] = (true, 1) := by
  refine ⟨?_, ?_, ?_⟩
  · exact ((C9_module_availability ⟨"", "boom", 1⟩ []).2.2.1 (by decide)).1
  · exact ((C9_module_availability ⟨"", "", 0⟩ []).2.2.2.1 (by decide)).1
  · exact (C9_module_availability ⟨"", "", 0⟩ [⟨"", "boom", 1⟩]).2.2.2.2.2.2
      (by decide)

/-! ## Offline installation (samsoftupdate0.x _install_offline_thread)

Each update file is installed by one external call (dism for .cab, wusa
for .msu); its observable result is the installer exit code, a timeout,
or a raised exception.  The loop classifies each item into exactly one
of the three counters, logs one outcome line per item, then logs the
summary with the three explicit counts and decides the reboot. -/

inductive InstallOutcome
  | exited (code : Int)
  | timeout
  | raised (msg : String)
deriving DecidableEq, Repr

/-- The result.returncode == 0 branch. -/
def is_success : InstallOutcome → Bool
  | .exited c => c == 0
  | _ => false

/-- The result.returncode == 2359302 (already installed) branch. -/
def is_skip : InstallOutcome → Bool
  | .exited c => c == 2359302
  | _ => false

/-- Every other exit code, a timeout, or a raised exception. -/
def is_fail (r : InstallOutcome) : Bool := !is_success r && !is_skip r

/-- The loop body's counter update: the if/elif/else over the returncode
plus the two except clauses, each incrementing exactly one counter. -/
def tally (acc : Nat × Nat × Nat) (r : InstallOutcome) : Nat × Nat × Nat :=
  if is_success r then (acc.1 + 1, acc.2.1, acc.2.2)
  else if is_skip r then (acc.1, acc.2.1 + 1, acc.2.2)
  else (acc.1, acc.2.1, acc.2.2 + 1)

/-- The three counters after the whole loop. -/
def counts (rs : List InstallOutcome) : Nat × Nat × Nat :=
  rs.foldl tally (0, 0, 0)

/-- The per-item outcome log line. -/
def install_item_log : InstallOutcome → String
  | .exited c =>
    if c == 0 then "  [OK] Successfully installed"
    else if c == 2359302 then "  [SKIP] Already installed"
    else "  [ERROR] Failed with code " ++ toString c
  | .timeout => "  [ERROR] Installation timeout"
  | .raised e => "  [ERROR] " ++ e

structure OfflineRun where
  logs : List String
  success_count : Nat
  skip_count : Nat
  fail_count : Nat
  reboot_issued : Bool
deriving DecidableEq, Repr

/-- _install_offline_thread over the found update files paired with the
outcome of each item's installer call; empty list means the early-return
branch (no update files found). -/
def install_offline_thread (repo_path : String)
    (items : List (String × InstallOutcome)) (auto_reboot : Bool) : OfflineRun :=
  if items.isEmpty then
    { logs := ["[OFFLINE] Installing updates from " ++ repo_path ++ "...",
               "[ERROR] No update files found in repository. Please download updates first."]
      success_count := 0, skip_count := 0, fail_count := 0
      reboot_issued := false }
  else
    let c := counts (items.map Prod.snd)
    let header := ["[OFFLINE] Installing updates from " ++ repo_path ++ "...",
        "[INFO] Found " ++ toString items.length ++ " update files to install."]
    let per_item := items.enum.flatMap (fun p =>
        ["[" ++ toString (p.1 + 1) ++ "/" ++ toString items.length
            ++ "] Installing " ++ p.2.1 ++ "...",
         install_item_log p.2.2])
    let summary := [String.mk (List.replicate 50 '='),
        "[SUMMARY] Installation complete:",
        "  - Successful: " ++ toString c.1,
        "  - Skipped (already installed): " ++ toString c.2.1,
        "  - Failed: " ++ toString c.2.2]
    let tail_logs :=
      if c.1 != 0 then
        if auto_reboot then
          ["[INFO] System will reboot in 30 seconds to complete installation."]
        else ["[INFO] Please reboot to complete installation."]
      else []
    { logs := header ++ per_item ++ summary ++ tail_logs
      success_count := c.1, skip_count := c.2.1, fail_count := c.2.2
      reboot_issued := c.1 != 0 && auto_reboot }

theorem foldl_tally (rs : List InstallOutcome) (a b c : Nat) :
    rs.foldl tally (a, b, c)
      = (a + rs.countP is_success, b + rs.countP is_skip,
          c + rs.countP is_fail) := by
  induction rs generalizing a b c with
  | nil => simp
  | cons r rs ih =>
    rw [List.foldl_cons]
    by_cases h1 : is_success r = true
    · have h2 : is_skip r = false := by
        rcases r with code | _ | m
        · have hc : code = 0 := by simpa [is_success] using h1
          subst hc
          decide
        · simp [is_success] at h1
        · simp [is_success] at h1
      have h3 : is_fail r = false := by simp [is_fail, h1]
      simp [tally, h1, h2, h3, ih, List.countP_cons, Prod.ext_iff]
      omega
    · replace h1 : is_success r = false := by simpa using h1
      by_cases h2 : is_skip r = true
      · have h3 : is_fail r = false := by simp [is_fail, h2]
        simp [tally, h1, h2, h3, ih, List.countP_cons, Prod.ext_iff]
        omega
      · replace h2 : is_skip r = false := by simpa using h2
        have h3 : is_fail r = true := by simp [is_fail, h1, h2]
        simp [tally, h1, h2, h3, ih, List.countP_cons, Prod.ext_iff]
        omega

theorem counts_eq (rs : List InstallOutcome) :
    counts rs = (rs.countP is_success, rs.countP is_skip, rs.countP is_fail) := by
  simpa using foldl_tally rs 0 0 0

/-- Each outcome satisfies exactly one of the three predicates. -/
theorem classify_exactly_one (r : InstallOutcome) :
    (if is_success r = true then (1 : Nat) else 0)
      + (if is_skip r = true then 1 else 0)
      + (if is_fail r = true then 1 else 0) = 1 := by
  rcases r with code | _ | m
  · by_cases h0 : code = 0
    · subst h0; decide
    · by_cases h2 : code = 2359302
      · subst h2; decide
      · have hs : is_success (.exited code) = false := by simp [is_success, h0]
        have hk : is_skip (.exited code) = false := by simp [is_skip, h2]
        simp [hs, hk, is_fail]
  · decide
  · simp [is_success, is_skip, is_fail]

theorem countP_classify_sum (rs : List InstallOutcome) :
    rs.countP is_success + rs.countP is_skip + rs.countP is_fail
      = rs.length := by
  induction rs with
  | nil => rfl
  | cons r rs ih =>
    have h := classify_exactly_one r
    rcases hs : is_success r <;> rcases hk : is_skip r <;>
      rcases hf : is_fail r <;>
      simp [hs, hk, hf, List.countP_cons] at h ⊢ <;> omega

theorem install_offline_thread_counts (repo : String)
    (items : List (String × InstallOutcome)) (flag : Bool) :
    (install_offline_thread repo items flag).success_count
        = (items.map Prod.snd).countP is_success
    ∧ (install_offline_thread repo items flag).skip_count
        = (items.map Prod.snd).countP is_skip
    ∧ (install_offline_thread repo items flag).fail_count
        = (items.map Prod.snd).countP is_fail := by
  unfold install_offline_thread
  split
  · next h =>
    have : items = [] := by simpa using h
    subst this
    exact ⟨rfl, rfl, rfl⟩
  · simp [counts_eq]

/-! samsofthdrv0's _install_offline_thread differs from the
samsoftupdate0.x variant: it counts only successes (exit code 0), logs
one line per failing item (non-zero exit with the captured stderr,
timeout, or exception) without a counter, and ends with the single
summary line "[SUMMARY] Successfully installed s of M updates." from
which the failure count is the difference M - s; the reboot condition
is the same conjunction. -/

/-- One update file of a samsofthdrv0 offline run: its name, the
installer outcome, and the captured stderr (used in the failure line). -/
structure HdrvItem where
  name : String
  outcome : InstallOutcome
  errText : String
deriving DecidableEq, Repr

/-- samsofthdrv0's per-item outcome log line. -/
def install_item_log_hdrv (it : HdrvItem) : String :=
  match it.outcome with
  | .exited c =>
    if c == 0 then "[OK] Successfully installed " ++ it.name
    else "[ERROR] Failed to install " ++ it.name ++ ": " ++ it.errText
  | .timeout => "[ERROR] Timeout installing " ++ it.name
  | .raised e => "[ERROR] Error installing " ++ it.name ++ ": " ++ e

/-- The loop's success_count accumulation: incremented on exit code 0
only. -/
def hdrv_success_count (items : List HdrvItem) : Nat :=
  items.foldl (fun n it => if is_success it.outcome then n + 1 else n) 0

structure HdrvOfflineRun where
  logs : List String
  success_count : Nat
  reboot_issued : Bool
deriving DecidableEq, Repr

/-- samsofthdrv0._install_offline_thread over the .msu files found and
each item's installer outcome; empty list is the early-return branch
(no .msu files). -/
def install_offline_thread_hdrv (repo_path : String)
    (items : List HdrvItem) (auto_reboot : Bool) : HdrvOfflineRun :=
  if items.isEmpty then
    { logs := ["[OFFLINE] Applying updates from " ++ repo_path ++ "...",
               "[ERROR] No .msu files found in repository. Please download Windows updates."]
      success_count := 0
      reboot_issued := false }
  else
    let s := hdrv_success_count items
    let header := ["[OFFLINE] Applying updates from " ++ repo_path ++ "...",
        "[INFO] Found " ++ toString items.length ++ " update files to install."]
    let per_item := items.flatMap (fun it =>
        ["[INSTALL] Installing " ++ it.name ++ "...", install_item_log_hdrv it])
    let summary := ["[SUMMARY] Successfully installed " ++ toString s
        ++ " of " ++ toString items.length ++ " updates."]
    let tail_logs :=
      if s != 0 && auto_reboot then
        ["[INFO] System will reboot in 30 seconds to complete installation."]
      else []
    { logs := header ++ per_item ++ summary ++ tail_logs
      success_count := s
      reboot_issued := s != 0 && auto_reboot }

theorem foldl_hdrv_success (items : List HdrvItem) (n : Nat) :
    items.foldl (fun n it => if is_success it.outcome then n + 1 else n) n
      = n + (items.map HdrvItem.outcome).countP is_success := by
  induction items generalizing n with
  | nil => simp
  | cons it items ih =>
    rw [List.foldl_cons]
    by_cases h : is_success it.outcome = true
    · simp [h, ih, List.countP_cons]
      omega
    · replace h : is_success it.outcome = false := by simpa using h
      simp [h, ih, List.countP_cons]

theorem hdrv_success_count_eq (items : List HdrvItem) :
    hdrv_success_count items = (items.map HdrvItem.outcome).countP is_success := by
  simpa using foldl_hdrv_success items 0

/-- Successes and non-successes partition any outcome list. -/
theorem countP_success_not_success (rs : List InstallOutcome) :
    rs.countP is_success + rs.countP (fun o => !is_success o) = rs.length := by
  induction rs with
  | nil => rfl
  | cons r rs ih =>
    by_cases h : is_success r = true
    · simp [List.countP_cons, h]
      omega
    · replace h : is_success r = false := by simpa using h
      simp [List.countP_cons, h]
      omega

/-- C10 — Offline-install per-item classification partition: the three
counters of a run equal the counts of the three disjoint and exhaustive
outcome classes (exit code 0, exit code 2359302, anything else including
timeouts and raised exceptions), each item falls in exactly one class,
and the counters sum to the number of update files of the run. -/
theorem C10_offline_classification_partition (repo : String)
    (items : List (String × InstallOutcome)) (auto_reboot : Bool) :
    (install_offline_thread repo items auto_reboot).success_count
        = (items.map Prod.snd).countP is_success
    ∧ (install_offline_thread repo items auto_reboot).skip_count
        = (items.map Prod.snd).countP is_skip
    ∧ (install_offline_thread repo items auto_reboot).fail_count
        = (items.map Prod.snd).countP is_fail
    ∧ (install_offline_thread repo items auto_reboot).success_count
        + (install_offline_thread repo items auto_reboot).skip_count
        + (install_offline_thread repo items auto_reboot).fail_count
        = items.length
    ∧ (∀ r : InstallOutcome,
        (if is_success r = true then (1 : Nat) else 0)
          + (if is_skip r = true then 1 else 0)
          + (if is_fail r = true then 1 else 0) = 1) := by
  obtain ⟨h1, h2, h3⟩ := install_offline_thread_counts repo items auto_reboot
  refine ⟨h1, h2, h3, ?_, classify_exactly_one⟩
  rw [h1, h2, h3, countP_classify_sum, List.length_map]

/-- C7 — Offline-install batch summary and reboot condition, for both
cited implementations, in every run with at least one success and at
least one failure.  samsoftupdate0.x: the end-of-run summary logs the
explicit success, failure (and skip) counts as separate lines.
samsofthdrv0: the end-of-run summary line reports the explicit success
count s and total M ("Successfully installed s of M updates."), and its
failure class (every non-zero exit, timeout or exception) numbers
exactly M - s, so the pair (s, M) gives the explicit failure count —
in neither variant is the outcome collapsed to a single pass/fail.  In
both, the automatic reboot is issued exactly when at least one item
succeeded and the auto_reboot configuration flag is set. -/
theorem C7_offline_summary_and_reboot (repo : String)
    (items : List (String × InstallOutcome)) (hitems : List HdrvItem)
    (auto_reboot : Bool)
    (hs : 0 < (items.map Prod.snd).countP is_success)
    (hf : 0 < (items.map Prod.snd).countP is_fail)
    (hhs : 0 < (hitems.map HdrvItem.outcome).countP is_success)
    (hhf : (hitems.map HdrvItem.outcome).countP is_success < hitems.length) :
    ("  - Successful: " ++ toString ((items.map Prod.snd).countP is_success))
        ∈ (install_offline_thread repo items auto_reboot).logs
    ∧ ("  - Failed: " ++ toString ((items.map Prod.snd).countP is_fail))
        ∈ (install_offline_thread repo items auto_reboot).logs
    ∧ ("  - Skipped (already installed): "
          ++ toString ((items.map Prod.snd).countP is_skip))
        ∈ (install_offline_thread repo items auto_reboot).logs
    ∧ ((install_offline_thread repo items auto_reboot).reboot_issued = true
        ↔ 0 < (install_offline_thread repo items auto_reboot).success_count
          ∧ auto_reboot = true)
    ∧ ("[SUMMARY] Successfully installed "
          ++ toString ((hitems.map HdrvItem.outcome).countP is_success)
          ++ " of " ++ toString hitems.length ++ " updates.")
        ∈ (install_offline_thread_hdrv repo hitems auto_reboot).logs
    ∧ (hitems.map HdrvItem.outcome).countP (fun o => !is_success o)
        = hitems.length - (hitems.map HdrvItem.outcome).countP is_success
    ∧ 0 < (hitems.map HdrvItem.outcome).countP (fun o => !is_success o)
    ∧ ((install_offline_thread_hdrv repo hitems auto_reboot).reboot_issued = true
        ↔ 0 < (install_offline_thread_hdrv repo hitems auto_reboot).success_count
          ∧ auto_reboot = true) := by
  have hne : items.isEmpty = false := by
    cases items with
    | nil => simp at hs
    | cons x xs => rfl
  have hhne : hitems.isEmpty = false := by
    cases hitems with
    | nil => simp at hhs
    | cons x xs => rfl
  have hsum := countP_success_not_success (hitems.map HdrvItem.outcome)
  rw [List.length_map] at hsum
  obtain ⟨h1, h2, h3⟩ := install_offline_thread_counts repo items auto_reboot
  refine ⟨?_, ?_, ?_, ?_, ?_, by omega, by omega, ?_⟩
  · unfold install_offline_thread
    rw [hne]
    simp [counts_eq, List.mem_append]
  · unfold install_offline_thread
    rw [hne]
    simp [counts_eq, List.mem_append]
  · unfold install_offline_thread
    rw [hne]
    simp [counts_eq, List.mem_append]
  · rw [h1]
    unfold install_offline_thread
    rw [hne]
    simp only [Bool.ite_eq_true_distrib]
    simp [counts_eq, Nat.pos_iff_ne_zero]
  · unfold install_offline_thread_hdrv
    rw [hhne]
    simp [hdrv_success_count_eq, List.mem_append]
  · unfold install_offline_thread_hdrv
    rw [hhne]
    simp [hdrv_success_count_eq, Nat.pos_iff_ne_zero]

/-- The five-item batch of the specification's third scenario for the
samsoftupdate0.x loop: exit 0 for three items, non-zero or timeout for
two. -/
def c7_items : List (String × InstallOutcome) :=
  [("a.msu", .exited 0), ("b.msu", .exited 1), ("c.msu", .exited 0),
   ("d.msu", .timeout), ("e.msu", .exited 0)]

/-- The same five-item batch for the samsofthdrv0 loop, with the stderr
text captured on the failing exit. -/
def c7_hdrv_items : List HdrvItem :=
  [⟨"a.msu", .exited 0, ""⟩, ⟨"b.msu", .exited 1, "err"⟩,
   ⟨"c.msu", .exited 0, ""⟩, ⟨"d.msu", .timeout, ""⟩,
   ⟨"e.msu", .exited 0, ""⟩]

/-- Witness for C7 at the concrete five-item batches with auto_reboot
set: samsoftupdate0.x logs three successes and two failures as separate
count lines, samsofthdrv0 logs the 3-of-5 summary line, and both issue
the reboot. -/
theorem C7_offline_summary_and_reboot_witness :
    ("  - Successful: " ++ toString ((c7_items.map Prod.snd).countP is_success))
        ∈ (install_offline_thread "R" c7_items true).logs
    ∧ ("  - Failed: " ++ toString ((c7_items.map Prod.snd).countP is_fail))
        ∈ (install_offline_thread "R" c7_items true).logs
    ∧ (install_offline_thread "R" c7_items true).reboot_issued = true
    ∧ ("[SUMMARY] Successfully installed "
          ++ toString ((c7_hdrv_items.map HdrvItem.outcome).countP is_success)
          ++ " of " ++ toString c7_hdrv_items.length ++ " updates.")
        ∈ (install_offline_thread_hdrv "R" c7_hdrv_items true).logs
    ∧ (install_offline_thread_hdrv "R" c7_hdrv_items true).reboot_issued
        = true := by
  obtain ⟨h1, h2, h3, h4, h5, h6, h7, h8⟩ :=
    C7_offline_summary_and_reboot "R" c7_items c7_hdrv_items true
      (by decide) (by decide) (by decide) (by decide)
  exact ⟨h1, h2, h4.mpr ⟨by decide, rfl⟩, h5, h8.mpr ⟨by decide, rfl⟩⟩

end Samsoft
